import Mathlib

/-!
Shallow embedding of `src/debug_gdb.py`, a GDB Python script that drives a
debugger session: it loads `build/kernel.elf`, connects to `localhost:1234`,
sets breakpoints at `_start` and `kernel_main`, continues twice, queries the
current frame as text, and — when the text contains `"kernel_main"` — runs an
inspection block (registers, stack window, two value prints, three steps,
registers again), all inside one bare `try/except` whose handler prints the
failure marker.

The script is linear and every external effect goes through `gdb.execute` or
`print`.  We model a run by an environment `Env` recording, for each
`gdb.execute` call in program order, whether it raises, and for the
`frame` query (called with `to_string=True`) the text it returns (`none`
meaning it raises).  `run` replays the script against such an environment and
yields the list of observable events (commands issued and lines printed) plus
a flag saying whether an exception escaped uncaught (so the script aborted).
-/

namespace DebugGdb

/-- An observable event of the script: a debugger command issued through
`gdb.execute`, or a line written by `print`. -/
inductive Event where
  | cmd (s : String)
  | print (s : String)
deriving DecidableEq, Repr

/-- Python's `pat in s` on strings, at the character-list level: does `pat`
match at the head of `l`? -/
def matchHere : List Char → List Char → Bool
  | [], _ => true
  | _ :: _, [] => false
  | p :: ps, c :: cs => p == c && matchHere ps cs

/-- Python's `pat in s` on strings, at the character-list level: does `pat`
occur as a contiguous subsequence of `l`? -/
def findSub (pat : List Char) : List Char → Bool
  | [] => pat.isEmpty
  | c :: cs => matchHere pat (c :: cs) || findSub pat cs

/-- Python's substring membership test `pat in s` (case-sensitive, matching
anywhere in `s`). -/
def pyIn (pat s : String) : Bool := findSub pat.data s.data

/-- Outcome environment of one run: for each `gdb.execute` call of the script,
in program order, whether it completes without raising; for the `frame` query
(executed with `to_string=True`), the text it returns, `none` meaning the call
raises. -/
structure Env where
  fileOk : Bool
  targetOk : Bool
  breakStartOk : Bool
  breakMainOk : Bool
  cont1Ok : Bool
  reg1Ok : Bool
  cont2Ok : Bool
  frameResult : Option String
  reg2Ok : Bool
  stackOk : Bool
  px0Ok : Bool
  pelOk : Bool
  next1Ok : Bool
  next2Ok : Bool
  next3Ok : Bool
  reg3Ok : Bool
deriving DecidableEq, Repr

/-- `print("\n===== Reached _start =====")`, line 25 of the script. -/
def reachedStartMsg : String := "\n===== Reached _start ====="

/-- `print("\n===== Reached kernel_main =====")`, line 38 of the script. -/
def reachedMainMsg : String := "\n===== Reached kernel_main ====="

/-- `print("\n===== Failed to reach kernel_main =====")`, lines 57 and 59. -/
def failedMainMsg : String := "\n===== Failed to reach kernel_main ====="

/-- `print("\nContinuing to kernel_main...")`, line 31. -/
def continuingMsg : String := "\nContinuing to kernel_main..."

/-- The final `print`, line 61. -/
def readyMsg : String :=
  "\nDebugger session ready. Type 'c' to continue execution or use other GDB commands."

/-- The exception-level query, line 47. -/
def currentELCmd : String := "p/d (unsigned long)($CurrentEL >> 2) & 0x3"

/-- The inspection commands of the `if "kernel_main" in frame_info:` branch
(lines 40-55), in program order, each paired with the environment's flag saying
whether that `gdb.execute` call completes without raising. -/
def inspSteps (e : Env) : List (Event × Bool) :=
  [(Event.cmd "info registers", e.reg2Ok),
   (Event.cmd "x/16x $sp", e.stackOk),
   (Event.cmd "p/x $x0", e.px0Ok),
   (Event.cmd currentELCmd, e.pelOk),
   (Event.cmd "next", e.next1Ok),
   (Event.cmd "next", e.next2Ok),
   (Event.cmd "next", e.next3Ok),
   (Event.cmd "info registers", e.reg3Ok)]

/-- Replay a list of guarded steps inside the `try` block: each command is
issued; if it raises, the bare `except:` handler prints the failure marker and
the block ends. -/
def runSteps : List (Event × Bool) → List Event
  | [] => []
  | (ev, ok) :: rest =>
      ev :: (if ok then runSteps rest else [Event.print failedMainMsg])

/-- Events produced by the body of the `try:` block after the `frame` command
itself (lines 36-59): if the frame query raised, or its text does not contain
`"kernel_main"`, the failure marker is printed; otherwise the success marker is
printed and the inspection steps run under the same `except:` guard. -/
def afterFrame (e : Env) : List Event :=
  match e.frameResult with
  | none => [Event.print failedMainMsg]
  | some s =>
      if pyIn "kernel_main" s then
        Event.print reachedMainMsg :: runSteps (inspSteps e)
      else
        [Event.print failedMainMsg]

/-- Result of a run: the event trace, and whether an exception escaped the
script uncaught (aborting it). -/
structure RunResult where
  trace : List Event
  aborted : Bool
deriving DecidableEq, Repr

/-- Replay of the whole script (lines 10-61) against an environment.  Each
`gdb.execute` outside the `try` block is issued and, if it raises, the
exception propagates uncaught and the script stops there.  Everything from the
`frame` query on is inside the `try`, whose bare `except:` prints the failure
marker, and the final ready line is printed after the `try/except`. -/
def run (e : Env) : RunResult :=
  let t := [Event.cmd "file build/kernel.elf"]
  if e.fileOk then
    let t := t ++ [Event.cmd "target remote localhost:1234"]
    if e.targetOk then
      let t := t ++ [Event.cmd "break _start"]
      if e.breakStartOk then
        let t := t ++ [Event.print "Breakpoint set at _start",
                       Event.cmd "break kernel_main"]
        if e.breakMainOk then
          let t := t ++ [Event.print "Breakpoint set at kernel_main",
                         Event.cmd "continue"]
          if e.cont1Ok then
            let t := t ++ [Event.print reachedStartMsg,
                           Event.cmd "info registers"]
            if e.reg1Ok then
              let t := t ++ [Event.print continuingMsg, Event.cmd "continue"]
              if e.cont2Ok then
                ⟨t ++ (Event.cmd "frame" ::
                  (afterFrame e ++ [Event.print readyMsg])), false⟩
              else ⟨t, true⟩
            else ⟨t, true⟩
          else ⟨t, true⟩
        else ⟨t, true⟩
      else ⟨t, true⟩
    else ⟨t, true⟩
  else ⟨t, true⟩

/-- The events of the unguarded part of the script (lines 10-32), as they
appear on any run whose seven unguarded `gdb.execute` calls all succeed. -/
def preEvents : List Event :=
  [Event.cmd "file build/kernel.elf",
   Event.cmd "target remote localhost:1234",
   Event.cmd "break _start",
   Event.print "Breakpoint set at _start",
   Event.cmd "break kernel_main",
   Event.print "Breakpoint set at kernel_main",
   Event.cmd "continue",
   Event.print reachedStartMsg,
   Event.cmd "info registers",
   Event.print continuingMsg,
   Event.cmd "continue"]

/-- The run reaches the frame query: the seven unguarded `gdb.execute` calls
before the `try` block all succeed. -/
def reachesFrame (e : Env) : Prop :=
  e.fileOk = true ∧ e.targetOk = true ∧ e.breakStartOk = true ∧
  e.breakMainOk = true ∧ e.cont1Ok = true ∧ e.reg1Ok = true ∧ e.cont2Ok = true

instance (e : Env) : Decidable (reachesFrame e) := by
  unfold reachesFrame; infer_instance

/-- All eight inspection commands of the success branch complete without
raising. -/
def inspAllOk (e : Env) : Bool :=
  e.reg2Ok && e.stackOk && e.px0Ok && e.pelOk &&
  e.next1Ok && e.next2Ok && e.next3Ok && e.reg3Ok

/-- The debugger commands of a trace, in order. -/
def cmdsL (l : List Event) : List String :=
  l.filterMap fun ev => match ev with
    | Event.cmd s => some s
    | Event.print _ => none

/-- The printed lines of a trace, in order. -/
def printsL (l : List Event) : List String :=
  l.filterMap fun ev => match ev with
    | Event.cmd _ => none
    | Event.print s => some s

/-- The debugger commands issued by a run, in order. -/
def cmds (r : RunResult) : List String := cmdsL r.trace

/-- The lines printed by a run, in order. -/
def prints (r : RunResult) : List String := printsL r.trace

@[simp] lemma cmdsL_nil : cmdsL [] = [] := rfl

@[simp] lemma cmdsL_cons_cmd (s : String) (l : List Event) :
    cmdsL (Event.cmd s :: l) = s :: cmdsL l := rfl

@[simp] lemma cmdsL_cons_print (s : String) (l : List Event) :
    cmdsL (Event.print s :: l) = cmdsL l := rfl

@[simp] lemma cmdsL_append (l₁ l₂ : List Event) :
    cmdsL (l₁ ++ l₂) = cmdsL l₁ ++ cmdsL l₂ :=
  List.filterMap_append _ _ _

@[simp] lemma printsL_nil : printsL [] = [] := rfl

@[simp] lemma printsL_cons_cmd (s : String) (l : List Event) :
    printsL (Event.cmd s :: l) = printsL l := rfl

@[simp] lemma printsL_cons_print (s : String) (l : List Event) :
    printsL (Event.print s :: l) = s :: printsL l := rfl

@[simp] lemma printsL_append (l₁ l₂ : List Event) :
    printsL (l₁ ++ l₂) = printsL l₁ ++ printsL l₂ :=
  List.filterMap_append _ _ _

/-- On a run whose unguarded calls all succeed, the trace is the unguarded
events followed by the frame command, the guarded block's events, and the
final ready line; no exception escapes. -/
lemma run_reaches (e : Env) (h : reachesFrame e) :
    run e = ⟨preEvents ++ (Event.cmd "frame" ::
      (afterFrame e ++ [Event.print readyMsg])), false⟩ := by
  obtain ⟨h1, h2, h3, h4, h5, h6, h7⟩ := h
  simp [run, preEvents, h1, h2, h3, h4, h5, h6, h7]

/-- When every step of a guarded list succeeds, replaying it issues exactly
its commands, in order. -/
lemma runSteps_all_ok (l : List (Event × Bool)) (h : ∀ p ∈ l, p.2 = true) :
    runSteps l = l.map Prod.fst := by
  induction l with
  | nil => rfl
  | cons p rest ih =>
      obtain ⟨ev, ok⟩ := p
      have hok : ok = true := h _ (List.mem_cons_self _ _)
      simp [runSteps, hok, ih fun q hq => h q (List.mem_cons_of_mem _ hq)]

/-- If some step of a guarded list fails, replaying it prints the failure
marker. -/
lemma runSteps_failed_mem (l : List (Event × Bool)) (h : l.all Prod.snd = false) :
    Event.print failedMainMsg ∈ runSteps l := by
  induction l with
  | nil => simp at h
  | cons p rest ih =>
      rcases p with ⟨ev, _ | _⟩
      · simp [runSteps]
      · simp only [List.all_cons] at h
        simp only [runSteps, if_true]
        exact List.mem_cons_of_mem _ (ih (by simpa using h))

/-- Every event of a replayed guarded list is one of its commands or the
failure marker. -/
lemma runSteps_mem (l : List (Event × Bool)) (ev : Event) (h : ev ∈ runSteps l) :
    ev ∈ l.map Prod.fst ∨ ev = Event.print failedMainMsg := by
  induction l with
  | nil => simp [runSteps] at h
  | cons p rest ih =>
      rcases p with ⟨pe, _ | _⟩
      · simp only [runSteps, Bool.false_eq_true, if_false, List.mem_cons,
          List.mem_singleton, List.not_mem_nil, or_false] at h
        rcases h with h | h
        · exact Or.inl (by simp [h])
        · exact Or.inr h
      · simp only [runSteps, if_true, List.mem_cons] at h
        rcases h with h | h
        · exact Or.inl (by simp [h])
        · rcases ih h with h | h
          · exact Or.inl (List.mem_cons_of_mem _ h)
          · exact Or.inr h

/-- The printed lines of a replayed guarded list of commands: nothing when all
steps succeed, exactly one failure marker otherwise. -/
lemma printsL_runSteps (l : List (Event × Bool))
    (hc : ∀ p ∈ l, ∃ s, p.1 = Event.cmd s) :
    printsL (runSteps l) = if l.all Prod.snd then [] else [failedMainMsg] := by
  induction l with
  | nil => rfl
  | cons p rest ih =>
      rcases p with ⟨ev, _ | _⟩
      · obtain ⟨s, hs⟩ := hc _ (List.mem_cons_self _ _)
        simp only [Prod.fst] at hs
        subst hs
        simp [runSteps]
      · obtain ⟨s, hs⟩ := hc _ (List.mem_cons_self _ _)
        simp only [Prod.fst] at hs
        subst hs
        simp only [runSteps, if_true, printsL_cons_cmd, List.all_cons,
          Bool.true_and]
        have := ih fun q hq => hc q (List.mem_cons_of_mem _ hq)
        simpa using this

/-- The flag conjunction `inspAllOk` agrees with step-wise success of the
inspection list. -/
lemma inspSteps_all (e : Env) : (inspSteps e).all Prod.snd = inspAllOk e := by
  simp [inspSteps, inspAllOk, Bool.and_assoc]

/-- Every first component of `inspSteps` is a command event. -/
lemma inspSteps_cmds (e : Env) : ∀ p ∈ inspSteps e, ∃ s, p.1 = Event.cmd s := by
  intro p hp
  simp only [inspSteps, List.mem_cons, List.not_mem_nil, or_false] at hp
  rcases hp with h | h | h | h | h | h | h | h <;> subst h <;> exact ⟨_, rfl⟩

/-- The inspection commands of the success branch, in program order. -/
def inspEvents : List Event :=
  [Event.cmd "info registers",
   Event.cmd "x/16x $sp",
   Event.cmd "p/x $x0",
   Event.cmd currentELCmd,
   Event.cmd "next",
   Event.cmd "next",
   Event.cmd "next",
   Event.cmd "info registers"]

/-- When the frame query raises, the guarded block prints only the failure
marker. -/
lemma afterFrame_none (e : Env) (h : e.frameResult = none) :
    afterFrame e = [Event.print failedMainMsg] := by
  simp [afterFrame, h]

/-- When the frame text lacks the substring, the guarded block prints only the
failure marker. -/
lemma afterFrame_notFound (e : Env) (s : String) (h : e.frameResult = some s)
    (hp : pyIn "kernel_main" s = false) :
    afterFrame e = [Event.print failedMainMsg] := by
  simp [afterFrame, h, hp]

/-- When the frame text contains the substring and every inspection command
succeeds, the guarded block is the success marker followed by the eight
inspection commands. -/
lemma afterFrame_found_ok (e : Env) (s : String) (h : e.frameResult = some s)
    (hp : pyIn "kernel_main" s = true) (ha : inspAllOk e = true) :
    afterFrame e = Event.print reachedMainMsg :: inspEvents := by
  have hall : ∀ p ∈ inspSteps e, p.2 = true := by
    intro p hmem
    have := inspSteps_all e
    rw [ha] at this
    exact List.all_eq_true.1 this p hmem
  simp only [afterFrame, h, hp, if_true]
  rw [runSteps_all_ok _ hall]
  simp [inspSteps, inspEvents]

/-- The printed lines of the guarded block, in each of the three cases:
frame query raised or substring absent, success with all inspections clean,
success with a failing inspection command. -/
lemma printsL_afterFrame (e : Env) :
    printsL (afterFrame e) = [failedMainMsg] ∨
    (printsL (afterFrame e) = [reachedMainMsg] ∧ inspAllOk e = true ∧
      ∃ s, e.frameResult = some s ∧ pyIn "kernel_main" s = true) ∨
    (printsL (afterFrame e) = [reachedMainMsg, failedMainMsg] ∧
      inspAllOk e = false ∧
      ∃ s, e.frameResult = some s ∧ pyIn "kernel_main" s = true) := by
  rcases hf : e.frameResult with _ | s
  · exact Or.inl (by simp [afterFrame_none e hf])
  · rcases hp : pyIn "kernel_main" s with _ | _
    · exact Or.inl (by simp [afterFrame_notFound e s hf hp])
    · have hrs := printsL_runSteps (inspSteps e) (inspSteps_cmds e)
      rw [inspSteps_all] at hrs
      rcases hok : inspAllOk e with _ | _
      · rw [hok] at hrs
        refine Or.inr (Or.inr ⟨?_, rfl, s, rfl, hp⟩)
        simp [afterFrame, hf, hp, hrs]
      · rw [hok] at hrs
        refine Or.inr (Or.inl ⟨?_, rfl, s, rfl, hp⟩)
        simp [afterFrame, hf, hp, hrs]

/-- The printed lines of a run whose unguarded calls all succeed: the two
breakpoint messages, the start marker, the continuing message, whatever the
guarded block prints, and the final ready line. -/
lemma prints_run_reaches (e : Env) (h : reachesFrame e) :
    prints (run e) = ["Breakpoint set at _start", "Breakpoint set at kernel_main",
      reachedStartMsg, continuingMsg] ++ (printsL (afterFrame e) ++ [readyMsg]) := by
  rw [run_reaches e h]
  simp [prints, preEvents]

/-- When the frame text contains the substring, the guarded block prints the
success marker and replays the guarded inspection steps. -/
lemma afterFrame_found (e : Env) (s : String) (hf : e.frameResult = some s)
    (hp : pyIn "kernel_main" s = true) :
    afterFrame e = Event.print reachedMainMsg :: runSteps (inspSteps e) := by
  simp [afterFrame, hf, hp]

/-- An environment in which every debugger command succeeds and the frame
query reports `kernel_main`. -/
def envAllOk : Env :=
  ⟨true, true, true, true, true, true, true,
   some "#0  kernel_main () at kernel.c:10",
   true, true, true, true, true, true, true, true⟩

/-- An environment in which the `file` command raises (missing binary). -/
def envNoFile : Env :=
  ⟨false, true, true, true, true, true, true, none,
   true, true, true, true, true, true, true, true⟩

/-- An environment in which the frame text names `kernel_main` but the stack
dump command raises. -/
def envStackRaise : Env :=
  ⟨true, true, true, true, true, true, true,
   some "#0  kernel_main () at kernel.c:10",
   true, false, true, true, true, true, true, true⟩

/-- An environment in which the frame query succeeds but its text does not
mention `kernel_main`. -/
def envNotFound : Env :=
  ⟨true, true, true, true, true, true, true,
   some "#0  main () at main.c:5",
   true, true, true, true, true, true, true, true⟩

/-- C3: when every command succeeds, the script issues the debugger commands
in exactly this order: load the symbol file, connect to the remote target,
set the two breakpoints by symbol name, continue, print registers, continue
again, and query the current frame as text. -/
theorem c3_command_order (e : Env) (h : reachesFrame e) :
    (cmds (run e)).take 8 =
      ["file build/kernel.elf", "target remote localhost:1234", "break _start",
       "break kernel_main", "continue", "info registers", "continue", "frame"] := by
  rw [run_reaches e h]
  rfl

/-- Witness for C3 at a fully succeeding environment. -/
theorem c3_command_order_witness :
    (cmds (run envAllOk)).take 8 =
      ["file build/kernel.elf", "target remote localhost:1234", "break _start",
       "break kernel_main", "continue", "info registers", "continue", "frame"] :=
  c3_command_order envAllOk (by decide)

/-- C4: when the frame text contains `kernel_main` and no inspection command
raises, the inspection block issues, in order: a register print, the 16-word
stack dump at the stack pointer, the two value prints (first-argument register
and derived exception level), three single steps, and a final register
print. -/
theorem c4_inspection_order (e : Env) (s : String) (h : reachesFrame e)
    (hf : e.frameResult = some s) (hp : pyIn "kernel_main" s = true)
    (ha : inspAllOk e = true) :
    (cmds (run e)).drop 8 =
      ["info registers", "x/16x $sp", "p/x $x0", currentELCmd,
       "next", "next", "next", "info registers"] := by
  rw [run_reaches e h, afterFrame_found_ok e s hf hp ha]
  rfl

/-- Witness for C4 at a fully succeeding environment. -/
theorem c4_inspection_order_witness :
    (cmds (run envAllOk)).drop 8 =
      ["info registers", "x/16x $sp", "p/x $x0", currentELCmd,
       "next", "next", "next", "info registers"] :=
  c4_inspection_order envAllOk "#0  kernel_main () at kernel.c:10"
    (by decide) rfl (by decide) (by decide)

/-- C5: when the load of the binary raises, the script stops right there:
the only event is the `file` command itself, nothing is printed (in
particular no breakpoint message), and the exception propagates uncaught. -/
theorem c5_load_failure (e : Env) (h : e.fileOk = false) :
    (run e).trace = [Event.cmd "file build/kernel.elf"] ∧
    prints (run e) = [] ∧ (run e).aborted = true := by
  simp [run, prints, h]

/-- Witness for C5 at an environment whose `file` command raises. -/
theorem c5_load_failure_witness :
    envNoFile.fileOk = false ∧
    ((run envNoFile).trace = [Event.cmd "file build/kernel.elf"] ∧
     prints (run envNoFile) = [] ∧ (run envNoFile).aborted = true) :=
  ⟨rfl, c5_load_failure envNoFile rfl⟩

/-- C6: when the frame query succeeds but its text does not contain
`kernel_main`, the script prints the failure marker, issues no inspection
command (the trace ends right after the frame query), and still prints the
final ready line; no exception escapes. -/
theorem c6_absent_substring (e : Env) (s : String) (h : reachesFrame e)
    (hf : e.frameResult = some s) (hp : pyIn "kernel_main" s = false) :
    (run e).trace = preEvents ++ [Event.cmd "frame", Event.print failedMainMsg,
      Event.print readyMsg] ∧ (run e).aborted = false := by
  rw [run_reaches e h, afterFrame_notFound e s hf hp]
  exact ⟨by simp, rfl⟩

/-- Witness for C6 at an environment whose frame text names `main` only. -/
theorem c6_absent_substring_witness :
    (run envNotFound).trace = preEvents ++ [Event.cmd "frame",
      Event.print failedMainMsg, Event.print readyMsg] ∧
    (run envNotFound).aborted = false :=
  c6_absent_substring envNotFound "#0  main () at main.c:5" (by decide) rfl (by decide)

/-- C8: whenever the first `continue` returns, the `Reached _start` marker and
the first register print are emitted unconditionally — the first nine events
are fixed, with no check on where execution stopped (the environment's
remaining outcomes are arbitrary). -/
theorem c8_start_unconditional (e : Env) (h1 : e.fileOk = true)
    (h2 : e.targetOk = true) (h3 : e.breakStartOk = true)
    (h4 : e.breakMainOk = true) (h5 : e.cont1Ok = true) :
    ((run e).trace).take 9 =
      [Event.cmd "file build/kernel.elf", Event.cmd "target remote localhost:1234",
       Event.cmd "break _start", Event.print "Breakpoint set at _start",
       Event.cmd "break kernel_main", Event.print "Breakpoint set at kernel_main",
       Event.cmd "continue", Event.print reachedStartMsg,
       Event.cmd "info registers"] := by
  rcases h6 : e.reg1Ok with _ | _
  · simp [run, h1, h2, h3, h4, h5, h6]
  · rcases h7 : e.cont2Ok with _ | _
    · simp [run, h1, h2, h3, h4, h5, h6, h7]
    · simp [run, h1, h2, h3, h4, h5, h6, h7]

/-- Witness for C8 at an environment in which every later step also
succeeds. -/
theorem c8_start_unconditional_witness :
    ((run envAllOk).trace).take 9 =
      [Event.cmd "file build/kernel.elf", Event.cmd "target remote localhost:1234",
       Event.cmd "break _start", Event.print "Breakpoint set at _start",
       Event.cmd "break kernel_main", Event.print "Breakpoint set at kernel_main",
       Event.cmd "continue", Event.print reachedStartMsg,
       Event.cmd "info registers"] :=
  c8_start_unconditional envAllOk rfl rfl rfl rfl rfl

/-- C1 counterexample: the claimed invariant — exactly one of the two markers
per run, never both, never neither — fails on the code.  When the frame text
names `kernel_main` but the stack dump then raises, the script has already
printed the success marker and the bare `except:` prints the failure marker
too, so both appear in one run; and a run whose `file` command raises prints
neither. -/
theorem c1_exactly_one_marker_counterexample :
    ((prints (run envStackRaise)).count reachedMainMsg = 1 ∧
     (prints (run envStackRaise)).count failedMainMsg = 1) ∧
    ((prints (run envNoFile)).count reachedMainMsg = 0 ∧
     (prints (run envNoFile)).count failedMainMsg = 0) := by
  decide

/-- C1 (amended): on every run that reaches the frame query, each of the two
markers is printed at most once, and at least one of them is printed. -/
theorem c1_markers_amended (e : Env) (h : reachesFrame e) :
    (prints (run e)).count reachedMainMsg ≤ 1 ∧
    (prints (run e)).count failedMainMsg ≤ 1 ∧
    1 ≤ (prints (run e)).count reachedMainMsg +
        (prints (run e)).count failedMainMsg := by
  rw [prints_run_reaches e h]
  rcases printsL_afterFrame e with hA | ⟨hA, -, -⟩ | ⟨hA, -, -⟩ <;>
    rw [hA] <;> decide

/-- Witness for the amended C1 at a fully succeeding environment. -/
theorem c1_markers_amended_witness :
    reachesFrame envAllOk ∧
    ((prints (run envAllOk)).count reachedMainMsg ≤ 1 ∧
     (prints (run envAllOk)).count failedMainMsg ≤ 1 ∧
     1 ≤ (prints (run envAllOk)).count reachedMainMsg +
         (prints (run envAllOk)).count failedMainMsg) :=
  ⟨by decide, c1_markers_amended envAllOk (by decide)⟩

/-- C2: when the frame query succeeds with a text naming `kernel_main` but
some later inspection command raises, the bare `except:` prints the failure
marker and no exception escapes the script. -/
theorem c2_guard_catches (e : Env) (s : String) (h : reachesFrame e)
    (hf : e.frameResult = some s) (hp : pyIn "kernel_main" s = true)
    (hb : inspAllOk e = false) :
    Event.print failedMainMsg ∈ (run e).trace ∧ (run e).aborted = false := by
  rw [run_reaches e h]
  constructor
  · have hmem : Event.print failedMainMsg ∈ runSteps (inspSteps e) :=
      runSteps_failed_mem _ (by rw [inspSteps_all]; exact hb)
    refine List.mem_append_right _ (List.mem_cons_of_mem _
      (List.mem_append_left _ ?_))
    rw [afterFrame_found e s hf hp]
    exact List.mem_cons_of_mem _ hmem
  · rfl

/-- Witness for C2 at an environment whose stack dump raises after the frame
text named `kernel_main`. -/
theorem c2_guard_catches_witness :
    Event.print failedMainMsg ∈ (run envStackRaise).trace ∧
    (run envStackRaise).aborted = false :=
  c2_guard_catches envStackRaise "#0  kernel_main () at kernel.c:10"
    (by decide) rfl (by decide) (by decide)

/-- C7: the frame text influences the run only through the single substring
check — two runs differing only in the frame text, with equal results of the
substring check, are identical event for event. -/
theorem c7_frame_info_single_use (e : Env) (s₁ s₂ : String)
    (h : pyIn "kernel_main" s₁ = pyIn "kernel_main" s₂) :
    run { e with frameResult := some s₁ } =
    run { e with frameResult := some s₂ } := by
  obtain ⟨f1, f2, f3, f4, f5, f6, f7, fr, g1, g2, g3, g4, g5, g6, g7, g8⟩ := e
  simp only [run, afterFrame, inspSteps, h]

/-- Witness for C7: two different frame texts, both containing the substring,
give the same run. -/
theorem c7_frame_info_single_use_witness :
    run { envAllOk with frameResult := some "kernel_main ()" } =
    run { envAllOk with frameResult := some "stop in kernel_main at 0x80000" } :=
  c7_frame_info_single_use envAllOk "kernel_main ()"
    "stop in kernel_main at 0x80000" (by decide)

/-- C9: the success test is a plain case-sensitive substring check — with all
inspection commands succeeding, the trace takes the full inspection branch
exactly when `pyIn "kernel_main"` holds of the frame text, and the failure
branch otherwise. -/
theorem c9_substring_check (e : Env) (s : String) (h : reachesFrame e)
    (ha : inspAllOk e = true) (hf : e.frameResult = some s) :
    (run e).trace = preEvents ++ (Event.cmd "frame" ::
      ((if pyIn "kernel_main" s then
          Event.print reachedMainMsg :: inspEvents
        else [Event.print failedMainMsg]) ++ [Event.print readyMsg])) := by
  rw [run_reaches e h]
  rcases hp : pyIn "kernel_main" s with _ | _
  · rw [afterFrame_notFound e s hf hp]
    simp
  · rw [afterFrame_found_ok e s hf hp ha]
    simp

/-- An all-succeeding environment whose frame text contains `kernel_main`
only as part of the longer identifier `kernel_maintenance`. -/
def envLongerIdent : Env :=
  ⟨true, true, true, true, true, true, true,
   some "#0  kernel_maintenance () at kernel.c:10",
   true, true, true, true, true, true, true, true⟩

/-- An all-succeeding environment whose frame text differs from the target
name only in letter case. -/
def envWrongCase : Env :=
  ⟨true, true, true, true, true, true, true,
   some "#0  Kernel_Main () at kernel.c:10",
   true, true, true, true, true, true, true, true⟩

/-- Witness for C9: a longer identifier containing `kernel_main` takes the
full inspection branch, while a text differing only in case takes the failure
branch. -/
theorem c9_substring_check_witness :
    (run envLongerIdent).trace = preEvents ++ (Event.cmd "frame" ::
      ((Event.print reachedMainMsg :: inspEvents) ++ [Event.print readyMsg])) ∧
    (run envWrongCase).trace = preEvents ++ (Event.cmd "frame" ::
      ([Event.print failedMainMsg] ++ [Event.print readyMsg])) := by
  constructor
  · have h := c9_substring_check envLongerIdent
      "#0  kernel_maintenance () at kernel.c:10" (by decide) (by decide) rfl
    rw [h]
    decide
  · have h := c9_substring_check envWrongCase
      "#0  Kernel_Main () at kernel.c:10" (by decide) (by decide) rfl
    rw [h]
    decide

/-- C10: every run that reaches the frame query prints the final ready line
exactly once — on the inspection path, on the absent-name path, and on the
caught-exception path alike. -/
theorem c10_ready_once (e : Env) (h : reachesFrame e) :
    (prints (run e)).count readyMsg = 1 := by
  rw [prints_run_reaches e h]
  rcases printsL_afterFrame e with hA | ⟨hA, -, -⟩ | ⟨hA, -, -⟩ <;>
    rw [hA] <;> decide

/-- Witness for C10 at an environment taking the caught-exception path. -/
theorem c10_ready_once_witness :
    reachesFrame envStackRaise ∧ (prints (run envStackRaise)).count readyMsg = 1 :=
  ⟨by decide, c10_ready_once envStackRaise (by decide)⟩
